import Mathlib

/-!
Shallow embedding of `src/ai_diffusion/cloud_client.py` (the cloud job client
of krita-ai-diffusion) and proofs about it.

Modelling conventions:
- Python `str` is `String`, Python `int` is `Int` (or `Nat` where the source
  value is a byte count), Python float progress fractions are `ℚ` (they are
  pass-through values: the client never computes with them).
- Python `dict` payloads are either typed structures with `Option` fields
  (absent key = `none`) or the inductive `Json` type where the code inspects
  dynamic shapes (`isinstance(offsets, list)`).
- `json.loads` is embedded as `json_loads`, a recursive-descent parser for the
  JSON fragment the client exchanges (no exponent literals, no unicode
  escapes; duplicate object keys resolve last-wins like Python dicts).
- `uuid.uuid4()` fresh local job identifiers are modelled by a fresh-id
  counter in the client state.
- Network transport is an oracle: functions take the server's responses
  (and a download/upload oracle) as arguments and return the messages the
  generator yields together with the exception, if any, that escapes.
-/

/-- Dynamic JSON values, for payload fields the code inspects structurally. -/
inductive Json where
  | obj (entries : List (String × Json))
  | arr (items : List Json)
  | str (text : String)
  | num (value : ℚ)
  | bool (flag : Bool)
  | null

/-- Is this one of the four JSON whitespace characters? -/
def jsonSpace (c : Char) : Bool :=
  c == ' ' || c == '\t' || c == '\n' || c == '\r'

def skipWs (cs : List Char) : List Char :=
  match cs with
  | [] => []
  | c :: rest => if jsonSpace c then skipWs rest else cs

/-- The two-character escape sequences of JSON strings, as (escape letter,
decoded character) pairs; the `\uXXXX` form is outside the modelled
fragment. -/
def escapeTable : List (Char × Char) :=
  [('"', '"'), ('\\', '\\'), ('/', '/'), ('n', '\n'), ('t', '\t'),
   ('r', '\r'), ('b', '\x08'), ('f', '\x0c')]

def decodeEscape (e : Char) : Option Char :=
  (escapeTable.find? (fun p => p.1 == e)).map Prod.snd

def parseStrAux : List Char → Option (List Char × List Char)
  | [] => none
  | '"' :: rest => some ([], rest)
  | '\\' :: e :: rest => do
      let c ← decodeEscape e
      let (s, r) ← parseStrAux rest
      some (c :: s, r)
  | c :: rest => do
      let (s, r) ← parseStrAux rest
      some (c :: s, r)

def parseDigits (cs : List Char) : List Nat × List Char :=
  match cs with
  | [] => ([], cs)
  | d :: rest =>
      if d.isDigit then
        let tail := parseDigits rest
        ((d.toNat - 48) :: tail.1, tail.2)
      else ([], cs)

def digitsVal (ds : List Nat) : Nat := ds.foldl (fun a d => 10 * a + d) 0

/-- Parse an unsigned decimal literal (integer part, optional fraction). -/
def parseNumMag (cs : List Char) : Option (ℚ × List Char) :=
  match parseDigits cs with
  | ([], _) => none
  | (ds, rest) =>
      match rest with
      | '.' :: r2 =>
          (match parseDigits r2 with
           | ([], _) => some ((digitsVal ds : ℚ), rest)
           | (fs, r3) =>
              some ((digitsVal ds : ℚ) + (digitsVal fs : ℚ) / ((10 : ℚ) ^ fs.length), r3))
      | _ => some ((digitsVal ds : ℚ), rest)

def parseNumber (cs : List Char) : Option (ℚ × List Char) :=
  match cs with
  | '-' :: r => (parseNumMag r).map (fun p => (-p.1, p.2))
  | _ => parseNumMag cs

/-- Strip an expected keyword (`true`, `false`, `null`) from the input. -/
def stripToken : List Char → List Char → Option (List Char)
  | [], rest => some rest
  | k :: ks, c :: rest => if c = k then stripToken ks rest else none
  | _ :: _, [] => none

mutual

def parseValue : Nat → List Char → Option (Json × List Char)
  | 0, _ => none
  | fuel + 1, cs =>
    match skipWs cs with
    | [] => none
    | '"' :: rest => do
        let (s, r) ← parseStrAux rest
        some (Json.str ⟨s⟩, r)
    | '\x7b' :: rest =>
        (match skipWs rest with
         | '\x7d' :: r2 => some (Json.obj [], r2)
         | other => do
            let (ms, r2) ← parseMembers fuel other
            some (Json.obj ms, r2))
    | '[' :: rest =>
        (match skipWs rest with
         | ']' :: r2 => some (Json.arr [], r2)
         | other => do
            let (es, r2) ← parseElems fuel other
            some (Json.arr es, r2))
    | c :: rest =>
        if c = '-' ∨ c.isDigit then do
          let (q, r) ← parseNumber (c :: rest)
          some (Json.num q, r)
        else if let some r := stripToken "true".toList (c :: rest) then
          some (Json.bool true, r)
        else if let some r := stripToken "false".toList (c :: rest) then
          some (Json.bool false, r)
        else if let some r := stripToken "null".toList (c :: rest) then
          some (Json.null, r)
        else none

def parseElems : Nat → List Char → Option (List Json × List Char)
  | 0, _ => none
  | fuel + 1, cs => do
      let (v, r) ← parseValue fuel cs
      match skipWs r with
      | ',' :: r2 => do
          let (vs, r3) ← parseElems fuel r2
          some (v :: vs, r3)
      | ']' :: r2 => some ([v], r2)
      | _ => none

def parseMembers : Nat → List Char → Option (List (String × Json) × List Char)
  | 0, _ => none
  | fuel + 1, cs =>
      match skipWs cs with
      | '"' :: rest => do
          let (k, r) ← parseStrAux rest
          match skipWs r with
          | ':' :: r2 => do
              let (v, r3) ← parseValue fuel r2
              match skipWs r3 with
              | ',' :: r4 => do
                  let (ms, r5) ← parseMembers fuel r4
                  some ((⟨k⟩, v) :: ms, r5)
              | '\x7d' :: r4 => some ([(⟨k⟩, v)], r4)
              | _ => none
          | _ => none
      | _ => none

end

/-- Model of Python `json.loads`: parse a complete JSON document, failing on
trailing garbage (so a bare word like "boom" is a parse error, as in Python). -/
def json_loads (s : String) : Option Json :=
  match parseValue (s.length + 1) s.toList with
  | some (v, rest) => if skipWs rest = [] then some v else none
  | none => none

/-- Python `dict.get` on a parsed JSON object: last binding wins, as in a
Python dict built by `json.loads`. -/
def dictGet (members : List (String × Json)) (key : String) : Option Json :=
  (members.filterMap (fun p => if p.1 = key then some p.2 else none)).getLast?

def b64Alphabet : List Char :=
  "ABCDEFGHIJKLMNOPQRSTUVWXYZabcdefghijklmnopqrstuvwxyz0123456789+/".toList

def b64Char (n : Nat) : Char := b64Alphabet.getD n 'A'

/-- Model of Python `base64.b64encode(blob).decode("utf-8")` on a byte list. -/
def b64encodeChars : List Nat → List Char
  | [] => []
  | [a] => [b64Char (a / 4), b64Char (a % 4 * 16), '=', '=']
  | [a, b] => [b64Char (a / 4), b64Char (a % 4 * 16 + b / 16), b64Char (b % 16 * 4), '=']
  | a :: b :: c :: rest =>
      b64Char (a / 4) :: b64Char (a % 4 * 16 + b / 16) :: b64Char (b % 16 * 4 + c / 64) ::
        b64Char (c % 64) :: b64encodeChars rest

def b64encode (bytes : List Nat) : String := ⟨b64encodeChars bytes⟩

/-- `User` entity from `client.py` (only the fields `cloud_client.py` uses). -/
structure User where
  id : String
  name : String
  images_generated : Int
  credits : Int

/-- The `user` object inside a `generate`/status response
(`response.get("user")`), with the two fields `_update_user` reads. -/
structure UserData where
  credits : Int
  images_generated : Int

/-- Data attached to a `NetworkError` from `network.py`: for 402 responses it
may carry `credits` and `cost` entries; `Option` fields model missing dict
keys (a missing key raises `KeyError` in the source). -/
structure NetworkErrorData where
  credits : Option Int
  cost : Option Int

/-- `NetworkError` from `network.py` as seen by `cloud_client.py`: an HTTP
status, a message and optional structured data. -/
structure NetworkError where
  status : Nat
  message : String
  data : Option NetworkErrorData

/-- The part of `WorkflowInput.models` that `enqueue` touches. -/
structure ModelInput where
  self_attention_guidance : Bool

/-- The part of `WorkflowInput` (from `api.py`, outside `src/`) that
`cloud_client.py` reads or writes: the batch count clamped by `enqueue` and
the optional model settings whose attention guidance it disables.  The rest of
the workflow is an opaque payload. -/
structure WorkflowInput where
  batch_count : Nat
  models : Option ModelInput

/-- `JobInfo` dataclass; `local_id` (a uuid string in the source) is modelled
as a fresh-counter `Nat`. -/
structure JobInfo where
  local_id : Nat
  work : WorkflowInput
  remote_id : Option String
  worker_id : Option String

/-- Client state relevant to `enqueue`: the FIFO queue and the fresh-id
counter standing in for `uuid.uuid4()`. -/
structure CloudState where
  queue : List JobInfo
  next_id : Nat

/-- The base64/URL payload of result images (`output["images"]`), with
`offsets` kept dynamic because the code checks `isinstance(offsets, list)`. -/
structure ImagesPayload where
  offsets : Option Json
  url : Option String
  base64 : Option String

/-- Result of `ImageCollection.from_bytes` / `from_base64` (from `image.py`,
outside `src/`): kept symbolic, recording which decoder ran on which data. -/
inductive ImageCollectionM where
  | from_bytes (data : List Nat) (offsets : List Json)
  | from_base64 (data : String) (offsets : List Json)

/-- Exceptions that `cloud_client.py` raises itself during job processing:
the two `ValueError`s of `receive_images` and dict `KeyError`s. -/
inductive PyError where
  | valueInvalidOffsets (offsets : Option Json)
  | valueNoImages
  | keyError (key : String)

/-- `ClientMessage`/`ClientEvent` values emitted by the client. -/
inductive Msg where
  | connected
  | queued (job_id : Nat)
  | progress (job_id : Nat) (value : ℚ)
  | finished (job_id : Nat) (value : ℚ) (images : ImageCollectionM) (pose : Option Json)
  | interrupted (job_id : Nat)
  | errorMsg (job_id : Nat) (error : Json)

/-- The fields of `output` in a status response that the client reads. -/
structure OutputData where
  progress : Option ℚ
  images : Option ImagesPayload
  pose : Option Json

/-- A status response: `{status, output?, error?}`. -/
structure StatusResponse where
  status : String
  output : Option OutputData
  error : Option String

/-- The response to `POST generate`: remote ids, optional user snapshot, and
an initial status response. -/
structure GenerateResponse where
  id : String
  worker_id : String
  user : Option UserData
  rsp : StatusResponse

/-- Result of the whole sign-in confirmation loop. -/
inductive SignInResult where
  | timeout
  | success (token : String)
  | authFailed (status : String)
  | keyErrorToken

/-- An `auth/confirm` response: a status string and, when authorized, the
bearer token (`Option` models a possibly missing `token` key). -/
structure AuthConfirm where
  status : String
  token : Option String

/-- Configured global settings consumed by `performance_settings`. -/
structure SettingsData where
  batch_size : Int
  resolution_multiplier : ℚ
  max_pixel_count : Int

/-- `PerformanceSettings` from `settings.py` (fields the client constructs). -/
structure PerformanceSettings where
  batch_size : Int
  resolution_multiplier : ℚ
  max_pixel_count : Int

/-- The `{url, object}` response of the `upload` endpoint. -/
structure UploadInfo where
  url : String
  object : String

/-- The `inputs["image_data"]` field before `_send_images` rewrites it. -/
structure ImageData where
  bytes : List Nat
  offsets : Json

/-- The `inputs["image_data"]` field after `_send_images` rewrites it. -/
inductive ImageDataOut where
  | base64Inline (data : String) (offsets : Json)
  | s3_object (object : String) (offsets : Json)

/-- `_base64_size`: the source computes `math.ceil(size / 3) * 4` with float
division; `(size + 2) / 3` is the same ceiling for every size at which the
3,500,000 threshold comparison can turn (doubles are exact there), so the
branch decision is identical for all sizes. -/
def _base64_size (size : Nat) : Nat := ((size + 2) / 3) * 4

/-- `CloudClient._send_images` together with `_upload_to_s3`: returns the
rewritten `image_data` field and the list of raw PUT transfers performed.
`upload_info` is the server's answer to the `upload` endpoint. -/
def _send_images (upload_info : UploadInfo) (image_data : Option ImageData) :
    Option ImageDataOut × List (String × List Nat) :=
  match image_data with
  | none => (none, [])
  | some d =>
      if _base64_size d.bytes.length < 3500000 then
        (some (.base64Inline (b64encode d.bytes) d.offsets), [])
      else
        (some (.s3_object upload_info.object d.offsets), [(upload_info.url, d.bytes)])

/-- Python truthiness of an optional string (`if url := images.get("url")`):
a missing key and an empty string are both falsy. -/
def strTruthy : Option String → Bool
  | some s => !s.isEmpty
  | none => false

/-- `CloudClient.receive_images`: validate offsets, then download or decode;
`download` is the transport oracle for `RequestManager.download`. -/
def receive_images (download : String → List Nat) (images : ImagesPayload) :
    Except PyError ImageCollectionM :=
  match images.offsets with
  | some (Json.arr (o :: os)) =>
      if strTruthy images.url then
        .ok (.from_bytes (download ((images.url).getD "")) (o :: os))
      else if strTruthy images.base64 then
        .ok (.from_base64 ((images.base64).getD "") (o :: os))
      else
        .error .valueNoImages
  | _ => .error (.valueInvalidOffsets images.offsets)

/-- `_extract_error`: take the `error` field of a FAILED response (with the
source's default string when absent), try `json.loads` on it, read
`error_message`/`error_traceback` out of a parsed dict, and fall back to the
raw string on any failure (parse error, or a parsed value that is not a
dict so that `.get` raises).  Total by construction: no exception escapes. -/
def _extract_error (error_field : Option String) (job_id : String) : Json × Json :=
  let error := error_field.getD ("\"Job " ++ job_id ++ " failed (unknown error)\"")
  match json_loads error with
  | some (Json.obj members) =>
      ((dictGet members "error_message").getD (Json.obj members),
       (dictGet members "error_traceback").getD (Json.str "No traceback"))
  | _ => (Json.str error, Json.str "No traceback")

/-- `_update_user`: apply a server-side user snapshot to the shared `User`,
returning the updated user and the computed cost. -/
def _update_user (user : User) (response : Option UserData) : User × Int :=
  match response with
  | some r =>
      ({ user with images_generated := r.images_generated, credits := r.credits },
       max 0 (user.credits - r.credits))
  | none => (user, 0)

/-- `CloudClient._process_http_error`: special-case 402 responses carrying
credit data; the `try` block first assigns `user.credits = data["credits"]`
and only then formats the message, so a missing `credits` key leaves the user
untouched while a missing `cost` key still updates the credits; both fall
back to the raw transport message. -/
def _process_http_error (user : Option User) (e : NetworkError) : Option User × String :=
  match e.data, user with
  | some d, some u =>
      if e.status = 402 then
        match d.credits with
        | none => (some u, e.message)
        | some c =>
            let u2 : User := { u with credits := c }
            match d.cost with
            | none => (some u2, e.message)
            | some cost =>
                (some u2,
                  "Insufficient funds - generation would cost " ++ toString cost ++
                    " tokens. Remaining tokens: " ++ toString u2.credits)
      else (some u, e.message)
  | _, _ => (user, e.message)

/-- `CloudClient.enqueue`: clamp the batch count, disable self-attention
guidance when model settings are present, assign a fresh local id, append to
the FIFO queue, return the local id.  The `front` parameter is accepted and
ignored, as in the source. -/
def enqueue (st : CloudState) (work : WorkflowInput) (front : Bool) : Nat × CloudState :=
  let work2 : WorkflowInput :=
    { work with
        batch_count := min work.batch_count 8,
        models := work.models.map (fun m => { m with self_attention_guidance := false }) }
  let job : JobInfo := ⟨st.next_id, work2, none, none⟩
  (job.local_id, ⟨st.queue ++ [job], st.next_id + 1⟩)

/-- `CloudClient.performance_settings` (a property computed from the global
settings object). -/
def performance_settings (s : SettingsData) : PerformanceSettings :=
  { batch_size := min 4 (max 8 s.batch_size),
    resolution_multiplier := s.resolution_multiplier,
    max_pixel_count := min 8 s.max_pixel_count }

/-- Progress fraction emitted for an `IN_PROGRESS` poll response: the
server-reported `output["progress"]` if present, else the placeholder 0.09.
An absent or empty `output` dict is falsy in the source, with the same
result as a present dict without a `progress` key. -/
def progress_of (r : StatusResponse) : ℚ :=
  match r.output with
  | some o => o.progress.getD (9 / 100)
  | none => 9 / 100

/-- The polling `while` loop of `_process_job`: as long as the current
response is `IN_QUEUE` or `IN_PROGRESS`, consume the next poll response,
emit its event, and continue.  Returns the loop's messages together with the
terminal response, or `none` when the supplied poll trace runs out while the
job is still pending (the source loop would keep polling). -/
def poll_loop (id : Nat) : StatusResponse → List StatusResponse → Option (List Msg × StatusResponse)
  | r, polls =>
      if r.status = "IN_QUEUE" ∨ r.status = "IN_PROGRESS" then
        match polls with
        | [] => none
        | r2 :: rest =>
            let evts : List Msg :=
              if r2.status = "IN_QUEUE" then [Msg.queued id]
              else if r2.status = "IN_PROGRESS" then [Msg.progress id (progress_of r2)]
              else []
            (poll_loop id r2 rest).map (fun p => (evts ++ p.1, p.2))
      else some ([], r)

/-- Terminal-status handling at the end of `_process_job`: the messages
emitted and the exception, if any, that escapes the generator. -/
def resolve_status (download : String → List Nat) (id : Nat) (remote_id : String)
    (r : StatusResponse) : List Msg × Option PyError :=
  if r.status = "COMPLETED" then
    match r.output with
    | none => ([], some (.keyError "output"))
    | some o =>
        match o.images with
        | none => ([], some (.keyError "images"))
        | some imgs =>
            match receive_images download imgs with
            | .error e => ([], some e)
            | .ok coll => ([Msg.finished id 1 coll o.pose], none)
  else if r.status = "FAILED" then
    ([Msg.errorMsg id (_extract_error r.error remote_id).1], none)
  else if r.status = "CANCELLED" then
    ([Msg.interrupted id], none)
  else if r.status = "TIMED_OUT" then
    ([Msg.errorMsg id (Json.str "job timed out")], none)
  else ([], none)

/-- Everything `_process_job` produces for one job. -/
structure ProcessOut where
  msgs : List Msg
  escape : Option PyError
  user : User
  job : JobInfo

/-- `CloudClient._process_job` given the `generate` response and the poll
trace: update the job's remote ids and the user's quota, emit `progress(0)`,
run the poll loop, then resolve the terminal status.  `none` when the poll
trace is exhausted before a terminal status. -/
def process_job (download : String → List Nat) (user : User) (job : JobInfo)
    (gen : GenerateResponse) (polls : List StatusResponse) : Option ProcessOut :=
  let job2 : JobInfo := { job with remote_id := some gen.id, worker_id := some gen.worker_id }
  let user2 := (_update_user user gen.user).1
  match poll_loop job.local_id gen.rsp polls with
  | none => none
  | some (loopMsgs, final) =>
      let resolved := resolve_status download job.local_id gen.id final
      some ⟨Msg.progress job.local_id 0 :: (loopMsgs ++ resolved.1), resolved.2, user2, job2⟩

/-- Outcome of processing one dequeued job, as seen by the `listen` loop: the
messages `_process_job` yielded before returning or raising, and the
`NetworkError` it raised, if any. -/
structure JobOutcome where
  local_id : Nat
  msgs : List Msg
  net_error : Option NetworkError

/-- Body of `CloudClient.listen`'s `while True` loop over a queue of job
outcomes: yield each job's messages and, when it raised a `NetworkError`,
catch it, convert it via `_process_http_error` (threading the shared user),
yield one `error` event tagged with the job's local id, and continue with the
next job.  Total by construction: no transport error escapes the loop. -/
def listen_msgs (user : Option User) : List JobOutcome → List Msg
  | [] => []
  | j :: rest =>
      match j.net_error with
      | some e =>
          let p := _process_http_error user e
          j.msgs ++ (Msg.errorMsg j.local_id (Json.str p.2) :: listen_msgs p.1 rest)
      | none => j.msgs ++ listen_msgs user rest

/-- `CloudClient.listen`: the initial `connected` event followed by the
per-job message stream. -/
def listen (user : Option User) (jobs : List JobOutcome) : List Msg :=
  Msg.connected :: listen_msgs user jobs

/-- The `asyncio.sleep(2)` between `auth/confirm` polls in `sign_in`. -/
def sign_in_poll_sleep : Nat := 2

/-- The 300-second bound in `sign_in`'s timeout check. -/
def sign_in_timeout_seconds : Nat := 300

/-- Resolution of a terminal (non-"not-found") `auth/confirm` response. -/
def resolve_confirm (c : AuthConfirm) : SignInResult :=
  if c.status = "authorized" then
    match c.token with
    | some t => .success t
    | none => .keyErrorToken
  else .authFailed c.status

/-- The confirmation-polling loop of `sign_in`: given the first
`auth/confirm` response and a trace of subsequent (elapsed-seconds, response)
pairs — the elapsed value is what `(datetime.now() - time).seconds` reads at
the top of that iteration — poll while the status is "not-found", raising
`TimeoutError` when more than 300 seconds have elapsed.  `none` when the
trace runs out while still pending. -/
def sign_in_confirm : AuthConfirm → List (Nat × AuthConfirm) → Option SignInResult
  | c, trace =>
      if c.status = "not-found" then
        match trace with
        | [] => none
        | (elapsed, c2) :: rest =>
            if elapsed > sign_in_timeout_seconds then some .timeout
            else sign_in_confirm c2 rest
      else some (resolve_confirm c)

/-- The bearer token stored in `self._token` after the confirmation loop:
only the authorized branch assigns it. -/
def sign_in_stored_token (old : String) : SignInResult → String
  | .success t => t
  | _ => old

/-- `sign_in` after the initial URL yield: the loop result paired with the
client's stored token afterwards. -/
def sign_in_run (old_token : String) (c : AuthConfirm) (trace : List (Nat × AuthConfirm)) :
    Option (SignInResult × String) :=
  (sign_in_confirm c trace).map (fun r => (r, sign_in_stored_token old_token r))

/-! ## Theorems -/

/-- C10: for every configured settings value, `performance_settings` returns
`batch_size = 4` (since `min 4 (max 8 x) = 4` for all `x`), passes the
resolution multiplier through, and caps `max_pixel_count` at `min 8` of the
configured value; the configured batch size has no effect. -/
theorem performance_settings_spec (s : SettingsData) :
    (performance_settings s).batch_size = 4 ∧
    (performance_settings s).max_pixel_count = min 8 s.max_pixel_count ∧
    (performance_settings s).resolution_multiplier = s.resolution_multiplier := by
  refine ⟨?_, rfl, rfl⟩
  simp only [performance_settings]
  omega

/-- C7: with user data in the submission response, `_update_user` overwrites
the shared user's credits and generated-image counter with the reported
values and returns cost `max 0 (previous - reported)`; with user data
missing it returns cost 0 and leaves the user unchanged (and is total, so no
error is raised). -/
theorem update_user_spec (u : User) (r : UserData) :
    _update_user u (some r) =
      ({ u with images_generated := r.images_generated, credits := r.credits },
        max 0 (u.credits - r.credits)) ∧
    _update_user u none = (u, 0) :=
  ⟨rfl, rfl⟩

/-- The ceiling division in `_base64_size` agrees with the mathematical
ceiling of `S / 3`. -/
theorem base64_ceil (S : ℕ) : ⌈(S : ℚ) / 3⌉ = ((S : ℤ) + 2) / 3 := by
  have h3 : (0 : ℚ) < 3 := by norm_num
  have hq1 : (S : ℤ) ≤ ((S : ℤ) + 2) / 3 * 3 := by omega
  have hq2 : ((S : ℤ) + 2) / 3 * 3 ≤ (S : ℤ) + 2 := by omega
  have hc1 : (S : ℚ) ≤ ((((S : ℤ) + 2) / 3 : ℤ) : ℚ) * 3 := by exact_mod_cast hq1
  have hc2 : ((((S : ℤ) + 2) / 3 : ℤ) : ℚ) * 3 ≤ (S : ℚ) + 2 := by exact_mod_cast hq2
  rw [Int.ceil_eq_iff]
  constructor
  · rw [lt_div_iff₀ h3]
    linarith
  · rw [div_le_iff₀ h3]
    linarith

/-- `_base64_size` equals the base64-inflated size `⌈S/3⌉ * 4`. -/
theorem base64_size_eq_ceil (S : ℕ) : (_base64_size S : ℤ) = ⌈(S : ℚ) / 3⌉ * 4 := by
  rw [base64_ceil]
  simp only [_base64_size]
  have : ((S + 2) / 3 : ℕ) = (((S : ℤ) + 2) / 3).toNat := by omega
  rw [this]
  omega

/-- C2: `_send_images` embeds a blob inline as base64 exactly when its
base64-inflated size `⌈S/3⌉ * 4` is below 3,500,000; otherwise it performs
one raw PUT of the bytes to the upload target's URL and embeds the returned
object reference together with the offsets. -/
theorem send_images_inline_iff (up : UploadInfo) (d : ImageData) :
    (⌈(d.bytes.length : ℚ) / 3⌉ * 4 < 3500000 →
      _send_images up (some d) =
        (some (.base64Inline (b64encode d.bytes) d.offsets), [])) ∧
    (¬ ⌈(d.bytes.length : ℚ) / 3⌉ * 4 < 3500000 →
      _send_images up (some d) =
        (some (.s3_object up.object d.offsets), [(up.url, d.bytes)])) := by
  have hcond : _base64_size d.bytes.length < 3500000 ↔
      ⌈(d.bytes.length : ℚ) / 3⌉ * 4 < 3500000 := by
    rw [show (3500000 : ℤ) = ((3500000 : ℕ) : ℤ) from rfl, ← base64_size_eq_ceil]
    exact_mod_cast Iff.rfl
  constructor
  · intro h
    simp only [_send_images, if_pos (hcond.mpr h)]
  · intro h
    simp only [_send_images, if_neg (fun hc => h (hcond.mp hc))]

/-- A blob strictly above the inline threshold (smallest such size:
`⌈2624998/3⌉ * 4 = 3500000`). -/
def bigBlob : ImageData := ⟨List.replicate 2624998 0, Json.null⟩

/-- Witness for C2: a 3-byte blob goes inline (as "TWFu"), a 2,624,998-byte
blob goes to the upload target. -/
theorem send_images_inline_iff_witness :
    _send_images ⟨"u", "obj"⟩ (some ⟨[77, 97, 110], Json.null⟩) =
      (some (.base64Inline "TWFu" Json.null), []) ∧
    _send_images ⟨"u", "obj"⟩ (some bigBlob) =
      (some (.s3_object "obj" Json.null), [("u", bigBlob.bytes)]) := by
  have hlen : bigBlob.bytes.length = 2624998 :=
    show (List.replicate 2624998 (0 : ℕ)).length = 2624998 from List.length_replicate ..
  constructor
  · have h := (send_images_inline_iff ⟨"u", "obj"⟩ ⟨[77, 97, 110], Json.null⟩).1
      (by rw [show (([77, 97, 110] : List ℕ)).length = 3 from rfl, base64_ceil]; decide)
    rw [h]
    rfl
  · exact (send_images_inline_iff ⟨"u", "obj"⟩ bigBlob).2
      (by rw [hlen, base64_ceil]; decide)

/-- Offsets invalid in the sense of claim C4: the field is absent, not a
list, or an empty list. -/
def offsets_invalid : Option Json → Prop
  | some (Json.arr xs) => xs = []
  | some _ => True
  | none => True

/-- C4: `receive_images` fails with the invalid-offsets error (the
`MalformedPayload` condition) whenever the offsets field is absent, not a
list, or an empty list — regardless of whether the payload carries a URL or
inline base64 — and it returns a decoded/downloaded result only when the
offsets field is a non-empty list. -/
theorem receive_images_offsets_validation (download : String → List Nat)
    (images : ImagesPayload) :
    (offsets_invalid images.offsets →
      receive_images download images = .error (.valueInvalidOffsets images.offsets)) ∧
    (∀ r, receive_images download images = .ok r →
      ∃ x xs, images.offsets = some (Json.arr (x :: xs))) := by
  obtain ⟨offs, url, b64⟩ := images
  constructor
  · intro h
    cases offs with
    | none => rfl
    | some v =>
      cases v with
      | null => rfl
      | bool _ => rfl
      | num _ => rfl
      | str _ => rfl
      | obj _ => rfl
      | arr xs =>
        cases xs with
        | nil => rfl
        | cons x xs => exact absurd h (by simp [offsets_invalid])
  · intro r hr
    cases offs with
    | none => simp [receive_images] at hr
    | some v =>
      cases v with
      | null => simp [receive_images] at hr
      | bool _ => simp [receive_images] at hr
      | num _ => simp [receive_images] at hr
      | str _ => simp [receive_images] at hr
      | obj _ => simp [receive_images] at hr
      | arr xs =>
        cases xs with
        | nil => simp [receive_images] at hr
        | cons x xs => exact ⟨x, xs, rfl⟩

/-- Witness for C4: an absent offsets field is rejected even when base64 data
is present, and a successful decode exhibits its non-empty offsets list. -/
theorem receive_images_offsets_validation_witness :
    receive_images (fun _ => []) ⟨none, none, some "zz"⟩ =
      .error (.valueInvalidOffsets none) ∧
    ∃ x xs, (ImagesPayload.mk (some (Json.arr [Json.num 0])) none (some "QUJD")).offsets
      = some (Json.arr (x :: xs)) := by
  constructor
  · exact (receive_images_offsets_validation (fun _ => []) ⟨none, none, some "zz"⟩).1 trivial
  · exact (receive_images_offsets_validation (fun _ => [])
      ⟨some (Json.arr [Json.num 0]), none, some "QUJD"⟩).2
      (.from_base64 "QUJD" [Json.num 0]) rfl

set_option maxRecDepth 8192 in
/-- C6: a 402 transport error with data `{credits: 5, cost: 3}` while a user
is authenticated sets the user's credit balance to 5 and produces a message
containing both "3" and "5"; a 402 error whose data lacks the needed keys is
tolerated (the function is total) and yields the raw transport message
unchanged. -/
theorem http_402_error_spec (u : User) (msg : String) (dat : Option NetworkErrorData) :
    (dat = some ⟨some 5, some 3⟩ →
      (_process_http_error (some u) ⟨402, msg, dat⟩).1 = some { u with credits := 5 } ∧
      "3".data <:+: ((_process_http_error (some u) ⟨402, msg, dat⟩).2).data ∧
      "5".data <:+: ((_process_http_error (some u) ⟨402, msg, dat⟩).2).data) ∧
    (∀ d, dat = some d → d.credits = none ∨ d.cost = none →
      (_process_http_error (some u) ⟨402, msg, dat⟩).2 = msg) := by
  constructor
  · intro h
    subst h
    have hm : (_process_http_error (some u) ⟨402, msg, some ⟨some 5, some 3⟩⟩).2 =
        "Insufficient funds - generation would cost 3 tokens. Remaining tokens: 5" := rfl
    refine ⟨rfl, ?_, ?_⟩ <;> rw [hm] <;> decide
  · intro d hd hmal
    subst hd
    obtain ⟨dc, dco⟩ := d
    cases dc with
    | none => rfl
    | some c =>
      cases dco with
      | none => rfl
      | some co => rcases hmal with h | h <;> simp at h

/-- Witness for C6: with 10 credits, a 402 carrying `{credits: 5, cost: 3}`
leaves the user at 5 credits and mentions both figures; a 402 with an empty
data dict falls back to the raw message. -/
theorem http_402_error_spec_witness :
    (_process_http_error (some ⟨"i", "n", 7, 10⟩) ⟨402, "raw", some ⟨some 5, some 3⟩⟩).1 =
      some ⟨"i", "n", 7, 5⟩ ∧
    "3".data <:+:
      ((_process_http_error (some ⟨"i", "n", 7, 10⟩) ⟨402, "raw", some ⟨some 5, some 3⟩⟩).2).data ∧
    "5".data <:+:
      ((_process_http_error (some ⟨"i", "n", 7, 10⟩) ⟨402, "raw", some ⟨some 5, some 3⟩⟩).2).data ∧
    (_process_http_error (some ⟨"i", "n", 7, 10⟩) ⟨402, "raw", some ⟨none, none⟩⟩).2 = "raw" := by
  have h1 := (http_402_error_spec ⟨"i", "n", 7, 10⟩ "raw" (some ⟨some 5, some 3⟩)).1 rfl
  have h2 := (http_402_error_spec ⟨"i", "n", 7, 10⟩ "raw" (some ⟨none, none⟩)).2
    ⟨none, none⟩ rfl (Or.inl rfl)
  exact ⟨h1.1, h1.2.1, h1.2.2, h2⟩

/-- C8: `enqueue` clamps a requested batch count above 8 down to 8 and leaves
one at most 8 unchanged, disables self-attention guidance on the enqueued
work's model settings, assigns a fresh local identifier (new with respect to
every queued job, under the fresh-counter invariant), appends the job at the
back of the FIFO queue, and returns that local identifier. -/
theorem enqueue_spec (st : CloudState) (work : WorkflowInput) (front : Bool) :
    ∃ job : JobInfo,
      enqueue st work front = (job.local_id, ⟨st.queue ++ [job], st.next_id + 1⟩) ∧
      (8 < work.batch_count → job.work.batch_count = 8) ∧
      (work.batch_count ≤ 8 → job.work.batch_count = work.batch_count) ∧
      (∀ m, job.work.models = some m → m.self_attention_guidance = false) ∧
      ((∀ j ∈ st.queue, j.local_id < st.next_id) →
        ∀ j ∈ st.queue, j.local_id ≠ job.local_id) := by
  refine ⟨⟨st.next_id,
      ⟨min work.batch_count 8, work.models.map (fun _ => ModelInput.mk false)⟩,
      none, none⟩, rfl, ?clampHigh, ?clampLow, ?sag, ?fresh⟩
  case clampHigh =>
    intro h
    simp only
    omega
  case clampLow =>
    intro h
    simp only
    omega
  case sag =>
    intro m hm
    cases hw : work.models with
    | none => rw [hw] at hm; simp at hm
    | some m0 =>
        rw [hw] at hm
        have hm2 : (some (ModelInput.mk false) : Option ModelInput) = some m := hm
        cases hm2
        rfl
  case fresh =>
    intro hinv j hj
    have := hinv j hj
    simp only
    omega

/-- Witness for C8: enqueueing work with batch count 12 on an empty queue
with fresh counter 5 yields a job with batch count 8, appended to the queue,
and returns its local id. -/
theorem enqueue_spec_witness :
    ∃ job : JobInfo, job.work.batch_count = 8 ∧
      enqueue ⟨[], 5⟩ ⟨12, some ⟨true⟩⟩ false = (job.local_id, ⟨[] ++ [job], 5 + 1⟩) := by
  obtain ⟨job, h1, h2, h3, h4, h5⟩ := enqueue_spec ⟨[], 5⟩ ⟨12, some ⟨true⟩⟩ false
  exact ⟨job, h2 (by norm_num), h1⟩

/-- The JSON-encoded error string of claim C5 (braces written as escapes). -/
def failedErrorJson : String := "\x7b\"error_message\":\"x\",\"error_traceback\":\"y\"\x7d"

/-- C5: when a FAILED response's error field is the JSON string
`{"error_message":"x","error_traceback":"y"}`, the extracted message — and
the message of the emitted error event — is "x"; when the error field is any
unparsable string, the extracted message is the raw string itself, and the
extraction is a total function, so no exception escapes. -/
theorem extract_error_spec (jid s : String) (dl : String → List Nat) (id : Nat) :
    (_extract_error (some failedErrorJson) jid).1 = Json.str "x" ∧
    resolve_status dl id jid ⟨"FAILED", none, some failedErrorJson⟩ =
      ([Msg.errorMsg id (Json.str "x")], none) ∧
    (json_loads s = none →
      (_extract_error (some s) jid).1 = Json.str s ∧
      resolve_status dl id jid ⟨"FAILED", none, some s⟩ =
        ([Msg.errorMsg id (Json.str s)], none)) := by
  have ha : (_extract_error (some failedErrorJson) jid).1 = Json.str "x" := rfl
  refine ⟨ha, ?_, ?_⟩
  · simp [resolve_status, ha]
  · intro h
    have hb : (_extract_error (some s) jid).1 = Json.str s := by
      simp only [_extract_error, Option.getD_some]
      rw [h]
    exact ⟨hb, by simp [resolve_status, hb]⟩

/-- Witness for C5: the unparsable error string "boom" comes back verbatim,
both from the extractor and in the emitted error event. -/
theorem extract_error_spec_witness :
    (_extract_error (some "boom") "job-1").1 = Json.str "boom" ∧
    resolve_status (fun _ => []) 3 "job-1" ⟨"FAILED", none, some "boom"⟩ =
      ([Msg.errorMsg 3 (Json.str "boom")], none) :=
  (extract_error_spec "job-1" "boom" (fun _ => []) 3).2.2 (by rfl)

/-- C9: the confirmation endpoint is polled on a fixed 2-second sleep while
the status is "not-found"; a "not-found" response observed more than 300
seconds after the start fails with the timeout condition; an "authorized"
response stores and yields the bearer token; any other status fails with the
authorization-failed condition carrying the server-reported status. -/
theorem sign_in_spec (c c2 : AuthConfirm) (t : Nat) (rest trace : List (Nat × AuthConfirm))
    (tok old : String) :
    (sign_in_poll_sleep = 2 ∧ sign_in_timeout_seconds = 300) ∧
    (c.status = "not-found" → t > 300 →
      sign_in_confirm c ((t, c2) :: rest) = some .timeout) ∧
    (c.status = "authorized" → c.token = some tok →
      sign_in_run old c trace = some (.success tok, tok)) ∧
    (c.status ≠ "not-found" → c.status ≠ "authorized" →
      sign_in_confirm c trace = some (.authFailed c.status)) := by
  refine ⟨⟨rfl, rfl⟩, ?_, ?_, ?_⟩
  · intro h1 h2
    unfold sign_in_confirm
    rw [if_pos h1]
    show (if t > sign_in_timeout_seconds then some SignInResult.timeout
      else sign_in_confirm c2 rest) = some SignInResult.timeout
    rw [if_pos (show t > sign_in_timeout_seconds from h2)]
  · intro h1 h2
    unfold sign_in_run sign_in_confirm
    rw [if_neg (by rw [h1]; decide)]
    unfold resolve_confirm
    rw [if_pos h1, h2]
    rfl
  · intro h1 h2
    unfold sign_in_confirm resolve_confirm
    rw [if_neg h1, if_neg h2]

/-- Witness for C9: a "not-found" response at 301 seconds times out; an
immediate "authorized" response stores and yields the token; a "denied"
response fails with that status. -/
theorem sign_in_spec_witness :
    sign_in_confirm ⟨"not-found", none⟩ [(301, ⟨"authorized", some "tk"⟩)] = some .timeout ∧
    sign_in_run "" ⟨"authorized", some "tk"⟩ [] = some (.success "tk", "tk") ∧
    sign_in_confirm ⟨"denied", none⟩ [] = some (.authFailed "denied") :=
  ⟨(sign_in_spec ⟨"not-found", none⟩ ⟨"authorized", some "tk"⟩ 301 [] [] "tk" "").2.1
      rfl (by norm_num),
   (sign_in_spec ⟨"authorized", some "tk"⟩ ⟨"authorized", some "tk"⟩ 0 [] [] "tk" "").2.2.1
      rfl rfl,
   (sign_in_spec ⟨"denied", none⟩ ⟨"denied", none⟩ 0 [] [] "tk" "").2.2.2
      (by decide) (by decide)⟩

/-- C3: when a job's processing raises a transport error, the listening loop
catches it (listen stays total), emits exactly one error event tagged with
that job's local identifier — converted through `_process_http_error` — and
then continues with the remaining queued jobs. -/
theorem listen_catches_transport_error (user : Option User) (jA : JobOutcome)
    (rest : List JobOutcome) (e : NetworkError) (h : jA.net_error = some e) :
    listen user (jA :: rest) =
      Msg.connected :: (jA.msgs ++
        (Msg.errorMsg jA.local_id (Json.str (_process_http_error user e).2) ::
          listen_msgs (_process_http_error user e).1 rest)) := by
  show Msg.connected :: listen_msgs user (jA :: rest) = _
  simp only [listen_msgs, h]

/-- Witness for C3: job 4 fails with a transport error and yields one error
event tagged 4; job 6 is still processed afterwards. -/
theorem listen_catches_transport_error_witness :
    listen none
        [⟨4, [Msg.progress 4 0], some ⟨500, "fail", none⟩⟩, ⟨6, [Msg.progress 6 0], none⟩] =
      [Msg.connected, Msg.progress 4 0, Msg.errorMsg 4 (Json.str "fail"),
       Msg.progress 6 0] := by
  rw [listen_catches_transport_error none _ _ ⟨500, "fail", none⟩ rfl]
  rfl

/-- C1: a job whose submission response is pending (IN_QUEUE or IN_PROGRESS)
and whose polls are [IN_QUEUE, IN_PROGRESS(0.3), IN_PROGRESS(0.6), COMPLETED]
yields, after the initial progress(0) event, exactly the events
[queued, progress(0.3), progress(0.6), finished(...)] in that order; and an
IN_PROGRESS response without a server-reported fraction yields the 0.09
placeholder. -/
theorem poll_sequence_event_stream
    (download : String → List Nat) (user : User) (job : JobInfo) (gen : GenerateResponse)
    (o1 o2 oc : OutputData) (imgs : ImagesPayload) (coll : ImageCollectionM)
    (hs : gen.rsp.status = "IN_QUEUE" ∨ gen.rsp.status = "IN_PROGRESS")
    (h1 : o1.progress = some (3 / 10)) (h2 : o2.progress = some (6 / 10))
    (hc : oc.images = some imgs)
    (hrecv : receive_images download imgs = .ok coll) :
    process_job download user job gen
        [⟨"IN_QUEUE", none, none⟩, ⟨"IN_PROGRESS", some o1, none⟩,
         ⟨"IN_PROGRESS", some o2, none⟩, ⟨"COMPLETED", some oc, none⟩] =
      some ⟨[Msg.progress job.local_id 0, Msg.queued job.local_id,
             Msg.progress job.local_id (3 / 10), Msg.progress job.local_id (6 / 10),
             Msg.finished job.local_id 1 coll oc.pose],
            none, (_update_user user gen.user).1,
            { job with remote_id := some gen.id, worker_id := some gen.worker_id }⟩ ∧
    progress_of ⟨"IN_PROGRESS", none, none⟩ = 9 / 100 ∧
    (∀ (st : String) (o : OutputData), o.progress = none →
      progress_of ⟨st, some o, none⟩ = 9 / 100) := by
  refine ⟨?_, rfl, ?_⟩
  · have hp : poll_loop job.local_id gen.rsp
        [⟨"IN_QUEUE", none, none⟩, ⟨"IN_PROGRESS", some o1, none⟩,
         ⟨"IN_PROGRESS", some o2, none⟩, ⟨"COMPLETED", some oc, none⟩] =
        some ([Msg.queued job.local_id, Msg.progress job.local_id (3 / 10),
               Msg.progress job.local_id (6 / 10)],
              ⟨"COMPLETED", some oc, none⟩) := by
      rcases hs with hs | hs <;>
        simp [poll_loop, progress_of, h1, h2, hs]
    have hr : resolve_status download job.local_id gen.id ⟨"COMPLETED", some oc, none⟩ =
        ([Msg.finished job.local_id 1 coll oc.pose], none) := by
      simp [resolve_status, hc, hrecv]
    unfold process_job
    rw [hp]
    simp only
    rw [hr]
    rfl
  · intro st o h
    simp [progress_of, h]

/-- Witness for C1: a concrete run with initial status IN_QUEUE and inline
base64 result images produces exactly the claimed event stream. -/
theorem poll_sequence_event_stream_witness :
    process_job (fun _ => []) ⟨"u", "n", 0, 0⟩ ⟨7, ⟨1, none⟩, none, none⟩
        ⟨"r1", "w1", none, ⟨"IN_QUEUE", none, none⟩⟩
        [⟨"IN_QUEUE", none, none⟩,
         ⟨"IN_PROGRESS", some ⟨some (3 / 10), none, none⟩, none⟩,
         ⟨"IN_PROGRESS", some ⟨some (6 / 10), none, none⟩, none⟩,
         ⟨"COMPLETED",
          some ⟨none, some ⟨some (Json.arr [Json.num 0]), none, some "QQ=="⟩, none⟩, none⟩] =
      some ⟨[Msg.progress 7 0, Msg.queued 7, Msg.progress 7 (3 / 10), Msg.progress 7 (6 / 10),
             Msg.finished 7 1 (.from_base64 "QQ==" [Json.num 0]) none],
            none, ⟨"u", "n", 0, 0⟩, ⟨7, ⟨1, none⟩, some "r1", some "w1"⟩⟩ :=
  (poll_sequence_event_stream (fun _ => []) ⟨"u", "n", 0, 0⟩ ⟨7, ⟨1, none⟩, none, none⟩
      ⟨"r1", "w1", none, ⟨"IN_QUEUE", none, none⟩⟩
      ⟨some (3 / 10), none, none⟩ ⟨some (6 / 10), none, none⟩
      ⟨none, some ⟨some (Json.arr [Json.num 0]), none, some "QQ=="⟩, none⟩
      ⟨some (Json.arr [Json.num 0]), none, some "QQ=="⟩
      (.from_base64 "QQ==" [Json.num 0])
      (Or.inl rfl) rfl rfl rfl rfl).1
